import Mathlib

/-
Verification of the blackbox-chat-client library (src/blackbox_chat.py).

The embedding models the single source file shallowly:
- `ChatModel`, `ChatConfig` mirror the enum and dataclass.
- Python exceptions become `Except BlackBoxError`; the `try/except` blocks
  that re-wrap raised errors are reproduced in the message strings.
- The HTTP transport is modelled as a function from the request payload to
  either a transport error string or an `HttpResponse`; this makes the
  payload actually posted by `_send_chat_request` / `_send_sources_request`
  observable in the model.
- Python dictionaries become association lists (`PyDict`) with `dict.update`
  semantics: an existing key is overwritten in place, a new key is appended.
- `chatTrace` is `chat` instrumented with an event trace, used for the
  temporal ordering claims (chat request drained before the sources request
  is submitted to the worker, worker joined before return).
-/

set_option linter.unusedVariables false

namespace BlackboxChat

/-- A JSON value, the result of `response.json()` and the value type of the
returned dictionaries. -/
inductive Json where
  | null : Json
  | bool (b : Bool) : Json
  | num (n : Int) : Json
  | str (s : String) : Json
  | arr (elems : List Json) : Json
  | obj (fields : List (String × Json)) : Json
deriving Repr

/-- A Python `Dict[str, Any]` as an insertion-ordered association list. -/
abbrev PyDict := List (String × Json)

/-- Key membership test, Python `k in d`. -/
def hasKey (k : String) : PyDict → Bool
  | [] => false
  | (k₁, _) :: rest => decide (k₁ = k) || hasKey k rest

/-- Lookup, Python `d[k]` / `d.get(k)` (first occurrence). -/
def lookup (k : String) : PyDict → Option Json
  | [] => none
  | (k₁, v) :: rest => if k₁ = k then some v else lookup k rest

/-- Setting one key, Python `d[k] = v`: an existing key keeps its position
and gets the new value, a fresh key is appended at the end. -/
def setKey (k : String) (v : Json) : PyDict → PyDict
  | [] => [(k, v)]
  | (k₁, v₁) :: rest => if k₁ = k then (k, v) :: rest else (k₁, v₁) :: setKey k v rest

/-- Python `a.update(b)`: every entry of `b` is set in `a`, in order. -/
def dictUpdate (a : PyDict) : PyDict → PyDict
  | [] => a
  | (k, v) :: rest => dictUpdate (setKey k v a) rest

/-- The keys of a dictionary are pairwise distinct (true of every dictionary
a Python program can build). -/
def keysNodup : PyDict → Bool
  | [] => true
  | (k, _) :: rest => !hasKey k rest && keysNodup rest

/-- `class ChatModel(Enum)`: the five available chat models. -/
inductive ChatModel where
  | GPT_4O : ChatModel
  | GEMINI_PRO : ChatModel
  | CLAUDE_SONNET_35 : ChatModel
  | BLACKBOX_AI_PRO : ChatModel
  | BLACKBOX_AI : ChatModel
deriving DecidableEq, Repr

/-- The `.value` of each enum member: the provider model id string. -/
def ChatModel.value : ChatModel → String
  | .GPT_4O => "gpt-4o"
  | .GEMINI_PRO => "gemini-pro"
  | .CLAUDE_SONNET_35 => "claude-sonnet-3.5"
  | .BLACKBOX_AI_PRO => "blackboxai-pro"
  | .BLACKBOX_AI => "blackboxai"

/-- The `.name` of each enum member (the Python member name). -/
def ChatModel.pyName : ChatModel → String
  | .GPT_4O => "GPT_4O"
  | .GEMINI_PRO => "GEMINI_PRO"
  | .CLAUDE_SONNET_35 => "CLAUDE_SONNET_35"
  | .BLACKBOX_AI_PRO => "BLACKBOX_AI_PRO"
  | .BLACKBOX_AI => "BLACKBOX_AI"

/-- Iteration order of the enum, `[m for m in ChatModel]`. -/
def ChatModel.all : List ChatModel :=
  [.GPT_4O, .GEMINI_PRO, .CLAUDE_SONNET_35, .BLACKBOX_AI_PRO, .BLACKBOX_AI]

/-- `[m.name for m in ChatModel]`. -/
def modelNames : List String := ChatModel.all.map ChatModel.pyName

/-- Python's `str.upper()`, modelled on the ASCII alphabet actually used by
the enum member names. -/
def pyUpper (s : String) : String := String.mk (s.data.map Char.toUpper)

/-- Case-insensitive equality of two strings (both sides uppercased). -/
def ciEq (a b : String) : Bool := pyUpper a == pyUpper b

/-- `ChatModel[model.upper()]`: `none` models the `KeyError` branch. -/
def resolveModel (model : String) : Option ChatModel :=
  ChatModel.all.find? (fun m => m.pyName == pyUpper model)

/-- `@dataclass class ChatConfig` with its defaults. -/
structure ChatConfig where
  max_tokens : Nat := 1024
  deep_search_mode : Bool := true
  web_search_mode_prompt : Bool := true
  timeout : Nat := 30
deriving DecidableEq, Repr

/-- The two exception classes that `chat` can raise (both subclass
`BlackBoxError`), each carrying its message. -/
inductive BlackBoxError where
  | modelNotFoundError (msg : String) : BlackBoxError
  | apiRequestError (msg : String) : BlackBoxError
deriving Repr

/-- An HTTP response as the two request helpers observe it: status code,
the decoded stream lines (`iter_lines`), and the parsed JSON body. -/
structure HttpResponse where
  status_code : Nat
  lines : List String
  body : Json

/-- One entry of the `messages` array of a request payload. -/
structure ChatMessage where
  id : String
  content : String
  role : String
deriving DecidableEq, Repr

/-- The JSON body posted to `{base}/chat` (the `data` dict built in
`_send_chat_request`, lines 91-122). `Option String`/`Option Nat` fields
model JSON `null` defaults. -/
structure ChatRequestData where
  messages : List ChatMessage
  id : String
  previewToken : Option String
  userId : Option String
  codeModelMode : Bool
  agentMode : PyDict
  trendingAgentMode : PyDict
  isMicMode : Bool
  userSystemPrompt : Option String
  maxTokens : Nat
  playgroundTopP : Option Nat
  playgroundTemperature : Option Nat
  isChromeExt : Bool
  githubToken : String
  clickedAnswer2 : Bool
  clickedAnswer3 : Bool
  clickedForceWebSearch : Bool
  visitFromDelta : Bool
  mobileClient : Bool
  userSelectedModel : String
  validated : String
  imageGenerationMode : Bool
  webSearchModePrompt : Bool
  deepSearchMode : Bool

/-- The `data` dict of `_send_chat_request`, translated field by field. -/
def chat_request_data (config : ChatConfig) (query : String) (model : ChatModel) :
    ChatRequestData where
  messages := [{ id := "", content := "@" ++ model.value ++ " " ++ query, role := "user" }]
  id := ""
  previewToken := none
  userId := none
  codeModelMode := true
  agentMode := []
  trendingAgentMode := []
  isMicMode := false
  userSystemPrompt := none
  maxTokens := config.max_tokens
  playgroundTopP := none
  playgroundTemperature := none
  isChromeExt := false
  githubToken := ""
  clickedAnswer2 := false
  clickedAnswer3 := false
  clickedForceWebSearch := false
  visitFromDelta := false
  mobileClient := false
  userSelectedModel := model.value
  validated := "00f37b34-a166-4efb-bce5-1312d87f2f94"
  imageGenerationMode := false
  webSearchModePrompt := config.web_search_mode_prompt
  deepSearchMode := config.deep_search_mode

/-- The `data` dict of `_send_sources_request` (lines 71-75). -/
structure SourcesRequestData where
  query : String
  messages : List ChatMessage
  index : Option Nat

/-- Builds the sources payload from the query. -/
def sources_request_data (query : String) : SourcesRequestData where
  query := query
  messages := [{ id := "", content := query, role := "user" }]
  index := none

/-- A transport for the chat endpoint: what `self.scraper.post(f"{base}/chat", ...)`
plus draining the stream yields for a given payload — either a raised
transport-level exception message or a response. -/
abbrev ChatTransport := ChatRequestData → Except String HttpResponse

/-- A transport for the `{base}/check` sources endpoint. -/
abbrev SourcesTransport := SourcesRequestData → Except String HttpResponse

/-- The streaming accumulation loop of `_send_chat_request` (lines 132-137):
every truthy (non-empty) line is appended followed by a newline. -/
def accumulate_lines (lines : List String) : String :=
  lines.foldl (fun streaming_response value =>
    if value ≠ "" then streaming_response ++ value ++ "\n" else streaming_response) ""

/-- `_send_chat_request` (lines 88-143). A raise inside the `try` block is
caught by `except Exception as e` and re-wrapped, hence the doubled
message on the non-200 path. -/
def send_chat_request (config : ChatConfig) (query : String) (model : ChatModel)
    ( prints : Bool) (post : ChatTransport) : Except BlackBoxError PyDict :=
  match post (chat_request_data config query model) with
  | .error e => .error (.apiRequestError ("Chat request failed: " ++ e))
  | .ok response =>
    if response.status_code = 200 then
      .ok [("streaming_response", Json.str (accumulate_lines response.lines))]
    else
      .error (.apiRequestError ("Chat request failed: " ++
        ("Chat request failed with status code: " ++ toString response.status_code)))

/-- `_send_sources_request` (lines 68-86), with the same re-wrapping of the
non-200 `APIRequestError` by the surrounding `except` clause. -/
def send_sources_request (config : ChatConfig) (query : String)
    (post : SourcesTransport) : Except BlackBoxError PyDict :=
  match post (sources_request_data query) with
  | .error e => .error (.apiRequestError ("Sources request failed: " ++ e))
  | .ok response =>
    if response.status_code = 200 then
      .ok [("sources", response.body)]
    else
      .error (.apiRequestError ("Sources request failed: " ++
        ("Sources request failed with status code: " ++ toString response.status_code)))

/-- The message of the `ModelNotFoundError` raised by `chat` (lines 166-168). -/
def invalidModelMessage (model : String) : String :=
  "Invalid model: " ++ model ++ ". Available models: " ++ String.intercalate ", " modelNames

/-- `BlackBoxChat.chat` (lines 145-183). The sources worker is submitted
after the chat call returns; `sources_future.result()` re-raises the
worker's exception, but only on the branch where it is called. -/
def chat (config : ChatConfig) (query : String) (model : String) ( prints : Bool)
    (chatPost : ChatTransport) (sourcesPost : SourcesTransport) :
    Except BlackBoxError PyDict :=
  match resolveModel model with
  | none => .error (.modelNotFoundError (invalidModelMessage model))
  | some chat_model =>
    match send_chat_request config query chat_model prints chatPost with
    | .error e => .error e
    | .ok chat_response =>
      if hasKey "error" chat_response = false then
        match send_sources_request config query sourcesPost with
        | .error e => .error e
        | .ok sources =>
          .ok (dictUpdate (dictUpdate [] sources) chat_response)
      else
        .ok (dictUpdate [] chat_response)

/-- Observable events of one `chat` call, in the order the code produces
them. `sourcesJoined` covers both `sources_future.result()` and the implicit
join performed by the `ThreadPoolExecutor` context manager on exit. -/
inductive Event where
  | chatIssued : Event
  | chatCompleted : Event
  | sourcesIssued : Event
  | sourcesJoined : Event
  | returned : Event
deriving DecidableEq, Repr

/-- `chat` instrumented with its event trace: the chat request is issued and
fully drained first; only then is the sources request submitted to the
worker, and the worker is joined before the call returns. -/
def chatTrace (config : ChatConfig) (query : String) (model : String) ( prints : Bool)
    (chatPost : ChatTransport) (sourcesPost : SourcesTransport) :
    Except BlackBoxError PyDict × List Event :=
  match resolveModel model with
  | none => (.error (.modelNotFoundError (invalidModelMessage model)), [])
  | some chat_model =>
    match send_chat_request config query chat_model prints chatPost with
    | .error e => (.error e, [.chatIssued])
    | .ok chat_response =>
      if hasKey "error" chat_response = false then
        match send_sources_request config query sourcesPost with
        | .error e =>
          (.error e, [.chatIssued, .chatCompleted, .sourcesIssued, .sourcesJoined])
        | .ok sources =>
          (.ok (dictUpdate (dictUpdate [] sources) chat_response),
            [.chatIssued, .chatCompleted, .sourcesIssued, .sourcesJoined, .returned])
      else
        (.ok (dictUpdate [] chat_response),
          [.chatIssued, .chatCompleted, .sourcesIssued, .sourcesJoined, .returned])

/-- The merge step of `chat` (lines 179-181) as a function of the two
sub-results: sources are merged only when the chat result carries no
`error` key, and the chat result is merged afterwards. -/
def mergeStep (chat_response sources : PyDict) : PyDict :=
  dictUpdate
    (if hasKey "error" chat_response = false then dictUpdate [] sources else [])
    chat_response

/-- The spec's description of the streamed text: the concatenation, in
arrival order, of each non-empty line followed by a newline, empty lines
skipped. -/
def linesConcat : List String → String
  | [] => ""
  | v :: rest => if v ≠ "" then v ++ "\n" ++ linesConcat rest else linesConcat rest

/-! ### Concrete responses and transports used to instantiate the theorems -/

/-- A chat endpoint answering HTTP 200 with the streamed lines of the
spec's example. -/
def okChatResponse : HttpResponse := ⟨200, ["Hello", "world"], Json.null⟩

/-- A sources endpoint answering HTTP 200 with body `{"refs":["a"]}`. -/
def okSourcesResponse : HttpResponse :=
  ⟨200, [], Json.obj [("refs", Json.arr [Json.str "a"])]⟩

/-- An endpoint answering HTTP 500. -/
def badResponse : HttpResponse := ⟨500, [], Json.null⟩

def okChatPost : ChatTransport := fun _ => .ok okChatResponse

def okSourcesPost : SourcesTransport := fun _ => .ok okSourcesResponse

def badChatPost : ChatTransport := fun _ => .ok badResponse

def badSourcesPost : SourcesTransport := fun _ => .ok badResponse

/-! ### Association-list lemmas (Python `dict` semantics) -/

theorem lookup_setKey_self (k : String) (v : Json) (d : PyDict) :
    lookup k (setKey k v d) = some v := by
  induction d with
  | nil => simp [setKey, lookup]
  | cons p rest ih =>
    obtain ⟨k₁, v₁⟩ := p
    by_cases h : k₁ = k
    · simp [setKey, h, lookup]
    · simp [setKey, h, lookup, ih]

theorem lookup_setKey_ne (k j : String) (hne : j ≠ k) (v : Json) (d : PyDict) :
    lookup j (setKey k v d) = lookup j d := by
  have hkj : ¬ (k = j) := fun hkj => hne hkj.symm
  induction d with
  | nil => simp [setKey, lookup, hkj]
  | cons p rest ih =>
    obtain ⟨k₁, v₁⟩ := p
    by_cases h : k₁ = k
    · subst h
      simp [setKey, lookup, hkj]
    · simp [setKey, h, lookup, ih]

theorem lookup_eq_none_of_hasKey_false (k : String) (d : PyDict)
    (h : hasKey k d = false) : lookup k d = none := by
  induction d with
  | nil => simp [lookup]
  | cons p rest ih =>
    obtain ⟨k₁, v₁⟩ := p
    simp [hasKey] at h
    simp [lookup, h.1, ih h.2]

theorem lookup_dictUpdate_of_lookup_none (k : String) (a b : PyDict)
    (h : lookup k b = none) : lookup k (dictUpdate a b) = lookup k a := by
  induction b generalizing a with
  | nil => simp [dictUpdate]
  | cons p rest ih =>
    obtain ⟨k₁, v₁⟩ := p
    by_cases hk : k₁ = k
    · simp [lookup, hk] at h
    · simp only [lookup, hk, if_neg hk] at h
      simp only [dictUpdate]
      rw [ih _ h, lookup_setKey_ne _ _ (fun hcontra => hk hcontra.symm)]

theorem lookup_dictUpdate_of_lookup_some (k : String) (v : Json) (a b : PyDict)
    (hnd : keysNodup b = true) (h : lookup k b = some v) :
    lookup k (dictUpdate a b) = some v := by
  induction b generalizing a with
  | nil => simp [lookup] at h
  | cons p rest ih =>
    obtain ⟨k₁, v₁⟩ := p
    simp only [keysNodup, Bool.and_eq_true, Bool.not_eq_true'] at hnd
    by_cases hk : k₁ = k
    · subst hk
      have hv : v₁ = v := by simpa [lookup] using h
      subst hv
      simp only [dictUpdate]
      rw [lookup_dictUpdate_of_lookup_none _ _ _
        (lookup_eq_none_of_hasKey_false _ _ hnd.1), lookup_setKey_self]
    · simp only [lookup, if_neg hk] at h
      simp only [dictUpdate]
      exact ih _ hnd.2 h

/-! ### Shapes of the results of the two request helpers -/

theorem send_chat_request_ok_shape (config : ChatConfig) (query : String)
    (model : ChatModel) ( prints : Bool) (post : ChatTransport) (d : PyDict)
    (h : send_chat_request config query model prints post = .ok d) :
    ∃ r, post (chat_request_data config query model) = .ok r ∧ r.status_code = 200
      ∧ d = [("streaming_response", Json.str (accumulate_lines r.lines))] := by
  unfold send_chat_request at h
  split at h
  · exact absurd h (by simp)
  · rename_i r hp
    by_cases hs : r.status_code = 200
    · refine ⟨r, hp, hs, ?_⟩
      rw [if_pos hs] at h
      exact (Except.ok.inj h).symm
    · rw [if_neg hs] at h
      exact absurd h (by simp)

theorem send_chat_request_error_shape (config : ChatConfig) (query : String)
    (model : ChatModel) ( prints : Bool) (post : ChatTransport) (e : BlackBoxError)
    (h : send_chat_request config query model prints post = .error e) :
    ∃ msg, e = .apiRequestError msg := by
  unfold send_chat_request at h
  split at h
  · exact ⟨_, (Except.error.inj h).symm⟩
  · rename_i r hp
    by_cases hs : r.status_code = 200
    · rw [if_pos hs] at h
      exact absurd h (by simp)
    · rw [if_neg hs] at h
      exact ⟨_, (Except.error.inj h).symm⟩

theorem send_sources_request_ok_shape (config : ChatConfig) (query : String)
    (post : SourcesTransport) (d : PyDict)
    (h : send_sources_request config query post = .ok d) :
    ∃ r, post (sources_request_data query) = .ok r ∧ r.status_code = 200
      ∧ d = [("sources", r.body)] := by
  unfold send_sources_request at h
  split at h
  · exact absurd h (by simp)
  · rename_i r hp
    by_cases hs : r.status_code = 200
    · refine ⟨r, hp, hs, ?_⟩
      rw [if_pos hs] at h
      exact (Except.ok.inj h).symm
    · rw [if_neg hs] at h
      exact absurd h (by simp)

theorem send_sources_request_error_shape (config : ChatConfig) (query : String)
    (post : SourcesTransport) (e : BlackBoxError)
    (h : send_sources_request config query post = .error e) :
    ∃ msg, e = .apiRequestError msg := by
  unfold send_sources_request at h
  split at h
  · exact ⟨_, (Except.error.inj h).symm⟩
  · rename_i r hp
    by_cases hs : r.status_code = 200
    · rw [if_pos hs] at h
      exact absurd h (by simp)
    · rw [if_neg hs] at h
      exact ⟨_, (Except.error.inj h).symm⟩

theorem send_sources_request_fails (config : ChatConfig) (query : String)
    (post : SourcesTransport)
    (hs : (∃ e, post (sources_request_data query) = .error e)
      ∨ ∃ r, post (sources_request_data query) = .ok r ∧ r.status_code ≠ 200) :
    ∃ msg, send_sources_request config query post = .error (.apiRequestError msg) := by
  rcases hs with ⟨e, he⟩ | ⟨r, hr, h200⟩
  · exact ⟨_, by unfold send_sources_request; rw [he]⟩
  · refine ⟨"Sources request failed: " ++
      ("Sources request failed with status code: " ++ toString r.status_code), ?_⟩
    unfold send_sources_request
    rw [hr]
    exact if_neg h200

theorem accumulate_lines_eq (lines : List String) :
    accumulate_lines lines = linesConcat lines := by
  suffices h : ∀ acc, List.foldl (fun streaming_response value =>
      if value ≠ "" then streaming_response ++ value ++ "\n" else streaming_response)
        acc lines = acc ++ linesConcat lines by
    simpa [accumulate_lines] using h ""
  induction lines with
  | nil => intro acc; simp [linesConcat]
  | cons v rest ih =>
    intro acc
    rw [List.foldl_cons]
    by_cases h : v = ""
    · rw [if_neg (fun hv => hv h), ih]
      simp [linesConcat, h]
    · rw [if_pos h, ih]
      simp [linesConcat, h, String.append_assoc]

/-! ### Model resolution lemmas -/

theorem pyUpper_pyName (m : ChatModel) : pyUpper m.pyName = m.pyName := by
  cases m <;> decide

theorem mem_all (m : ChatModel) : m ∈ ChatModel.all := by
  cases m <;> simp [ChatModel.all]

theorem resolveModel_eq_none_iff (model : String) :
    resolveModel model = none ↔ ∀ m : ChatModel, ciEq model m.pyName = false := by
  unfold resolveModel
  rw [List.find?_eq_none]
  constructor
  · intro h m
    have hm := h m (mem_all m)
    rw [ciEq, pyUpper_pyName]
    simp only [beq_eq_false_iff_ne, ne_eq]
    intro hEq
    exact hm (by simp [hEq])
  · intro h m _
    have hm := h m
    rw [ciEq, pyUpper_pyName] at hm
    simp only [beq_eq_false_iff_ne, ne_eq] at hm
    simp only [beq_iff_eq]
    intro hEq
    exact hm hEq.symm

theorem resolveModel_some_ciEq (model : String) (m : ChatModel)
    (h : resolveModel model = some m) : ciEq model m.pyName = true := by
  have hp := List.find?_some h
  simp only [beq_iff_eq] at hp
  rw [ciEq, pyUpper_pyName, hp]
  simp

/-- `chat` can only raise `ModelNotFoundError` in the name-resolution step:
once a model resolves, every failure is an `APIRequestError`. -/
theorem chat_no_model_error_of_resolve_some (config : ChatConfig) (query model : String)
    ( prints : Bool) (chatPost : ChatTransport) (sourcesPost : SourcesTransport)
    (m : ChatModel) (msg : String) (hm : resolveModel model = some m) :
    chat config query model prints chatPost sourcesPost
      ≠ .error (.modelNotFoundError msg) := by
  cases hsc : send_chat_request config query m prints chatPost with
  | error e =>
    obtain ⟨msg₂, he⟩ := send_chat_request_error_shape _ _ _ _ _ _ hsc
    subst he
    simp [chat, hm, hsc]
  | ok c =>
    obtain ⟨r, hrp, hr200, hc⟩ := send_chat_request_ok_shape _ _ _ _ _ _ hsc
    subst hc
    cases hss : send_sources_request config query sourcesPost with
    | error e =>
      obtain ⟨msg₂, he⟩ := send_sources_request_error_shape _ _ _ _ hss
      subst he
      simp [chat, hm, hsc, hss, hasKey]
    | ok s =>
      simp [chat, hm, hsc, hss, hasKey]

/-! ### Claim theorems -/

/-- C1: whenever the chat sub-request succeeds (HTTP 200) but the sources
sub-request fails (transport error or non-200 status), the whole `chat`
call raises `APIRequestError` instead of returning a chat-only result. -/
theorem chat_propagates_sources_failure (config : ChatConfig) (query model : String)
    ( prints : Bool) (chatPost : ChatTransport) (sourcesPost : SourcesTransport)
    (m : ChatModel) (r : HttpResponse)
    (hm : resolveModel model = some m)
    (hc : chatPost (chat_request_data config query m) = .ok r)
    (h200 : r.status_code = 200)
    (hs : (∃ e, sourcesPost (sources_request_data query) = .error e)
      ∨ ∃ r₂, sourcesPost (sources_request_data query) = .ok r₂ ∧ r₂.status_code ≠ 200) :
    ∃ msg, chat config query model prints chatPost sourcesPost
      = .error (.apiRequestError msg) := by
  obtain ⟨msg, hmsg⟩ := send_sources_request_fails config query sourcesPost hs
  have hcr : send_chat_request config query m prints chatPost
      = .ok [("streaming_response", Json.str (accumulate_lines r.lines))] := by
    simp [send_chat_request, hc, h200]
  exact ⟨msg, by simp [chat, hm, hcr, hmsg, hasKey]⟩

/-- C2: `chat` raises `ModelNotFoundError` if and only if the requested
name, compared case-insensitively, is none of the five enumeration keys;
the error message lists every valid model name exactly once; a resolved
name matches its enumeration key case-insensitively, and each key maps to
its provider model id. -/
theorem chat_model_resolution (config : ChatConfig) (query model : String) ( prints : Bool)
    (chatPost : ChatTransport) (sourcesPost : SourcesTransport) :
    ((∃ msg, chat config query model prints chatPost sourcesPost
        = .error (.modelNotFoundError msg))
      ↔ ∀ m : ChatModel, ciEq model m.pyName = false)
    ∧ (∀ msg, chat config query model prints chatPost sourcesPost
        = .error (.modelNotFoundError msg) →
        msg = "Invalid model: " ++ model ++ ". Available models: "
            ++ String.intercalate ", " modelNames
          ∧ ∀ n ∈ modelNames, modelNames.count n = 1)
    ∧ (∀ m : ChatModel, resolveModel model = some m → ciEq model m.pyName = true)
    ∧ ChatModel.GPT_4O.value = "gpt-4o"
    ∧ ChatModel.GEMINI_PRO.value = "gemini-pro"
    ∧ ChatModel.CLAUDE_SONNET_35.value = "claude-sonnet-3.5"
    ∧ ChatModel.BLACKBOX_AI_PRO.value = "blackboxai-pro"
    ∧ ChatModel.BLACKBOX_AI.value = "blackboxai" := by
  refine ⟨⟨?_, ?_⟩, ?_, resolveModel_some_ciEq model, rfl, rfl, rfl, rfl, rfl⟩
  · rintro ⟨msg, hmsg⟩
    rw [← resolveModel_eq_none_iff]
    cases hr : resolveModel model with
    | none => rfl
    | some m =>
      exact absurd hmsg (chat_no_model_error_of_resolve_some _ _ _ _ _ _ _ _ hr)
  · intro h
    have hnone : resolveModel model = none := (resolveModel_eq_none_iff model).mpr h
    exact ⟨invalidModelMessage model, by simp [chat, hnone]⟩
  · intro msg hmsg
    cases hr : resolveModel model with
    | some m =>
      exact absurd hmsg (chat_no_model_error_of_resolve_some _ _ _ _ _ _ _ _ hr)
    | none =>
      have hch : chat config query model prints chatPost sourcesPost
          = .error (.modelNotFoundError (invalidModelMessage model)) := by
        simp [chat, hr]
      rw [hch] at hmsg
      have hm2 : invalidModelMessage model = msg :=
        BlackBoxError.modelNotFoundError.inj (Except.error.inj hmsg)
      exact ⟨hm2.symm, by decide⟩

/-- C3: a chat request answered with HTTP 200 yields a result whose
`streaming_response` is the concatenation, in arrival order, of each
non-empty streamed line followed by a newline (empty lines skipped); in
particular the lines `["Hello", "world"]` give `"Hello\nworld\n"`. -/
theorem chat_streaming_accumulation (config : ChatConfig) (query : String)
    (model : ChatModel) ( prints : Bool) (chatPost : ChatTransport) (r : HttpResponse)
    (hc : chatPost (chat_request_data config query model) = .ok r)
    (h200 : r.status_code = 200) :
    send_chat_request config query model prints chatPost
      = .ok [("streaming_response", Json.str (linesConcat r.lines))]
    ∧ linesConcat ["Hello", "world"] = "Hello\nworld\n" := by
  refine ⟨?_, by decide⟩
  simp [send_chat_request, hc, h200, accumulate_lines_eq]

/-- C4: when the chat endpoint answers with a non-200 status, `chat` raises
`APIRequestError` whose message mentions that status code, whatever the
sources transport would have replied. -/
theorem chat_non200_error (config : ChatConfig) (query model : String) ( prints : Bool)
    (chatPost : ChatTransport) (sourcesPost : SourcesTransport) (m : ChatModel)
    (r : HttpResponse) (hm : resolveModel model = some m)
    (hc : chatPost (chat_request_data config query m) = .ok r)
    (h200 : r.status_code ≠ 200) :
    chat config query model prints chatPost sourcesPost
      = .error (.apiRequestError ("Chat request failed: "
          ++ ("Chat request failed with status code: " ++ toString r.status_code))) := by
  have hcr : send_chat_request config query m prints chatPost
      = .error (.apiRequestError ("Chat request failed: "
          ++ ("Chat request failed with status code: " ++ toString r.status_code))) := by
    simp [send_chat_request, hc, h200]
  simp [chat, hm, hcr]

/-- C5: every dictionary returned by `chat` has the `streaming_response`
field, and it has the `sources` field only when the sources sub-request
succeeded with HTTP 200 and the chat sub-result carried no `error` key. -/
theorem chat_result_fields (config : ChatConfig) (query model : String) ( prints : Bool)
    (chatPost : ChatTransport) (sourcesPost : SourcesTransport) (d : PyDict)
    (h : chat config query model prints chatPost sourcesPost = .ok d) :
    (∃ v, lookup "streaming_response" d = some v)
    ∧ ((∃ v, lookup "sources" d = some v) →
        (∃ r, sourcesPost (sources_request_data query) = .ok r ∧ r.status_code = 200)
        ∧ ∃ m c, resolveModel model = some m
            ∧ send_chat_request config query m prints chatPost = .ok c
            ∧ hasKey "error" c = false) := by
  cases hr : resolveModel model with
  | none => simp [chat, hr] at h
  | some m =>
    cases hsc : send_chat_request config query m prints chatPost with
    | error e => simp [chat, hr, hsc] at h
    | ok c =>
      obtain ⟨r, hrp, hr200, hcEq⟩ := send_chat_request_ok_shape _ _ _ _ _ _ hsc
      subst hcEq
      cases hss : send_sources_request config query sourcesPost with
      | error e => simp [chat, hr, hsc, hss, hasKey] at h
      | ok s =>
        obtain ⟨r₂, hsp, hs200, hsEq⟩ := send_sources_request_ok_shape _ _ _ _ hss
        subst hsEq
        have hd : d = [("sources", r₂.body),
            ("streaming_response", Json.str (accumulate_lines r.lines))] := by
          have := h
          simp [chat, hr, hsc, hss, hasKey, dictUpdate, setKey] at this
          exact this.symm
        subst hd
        refine ⟨⟨Json.str (accumulate_lines r.lines), by simp [lookup]⟩, fun _ => ?_⟩
        exact ⟨⟨r₂, hsp, hs200⟩,
          ⟨m, [("streaming_response", Json.str (accumulate_lines r.lines))],
            rfl, hsc, by simp [hasKey]⟩⟩

/-- C6: the merge step merges the sources result only when the chat result
has no error indicator, and merges the chat result afterwards, so on any
key present in both results the chat result's value wins; `chat` returns
exactly this merge of its two sub-results. -/
theorem chat_merge_precedence :
    (∀ (config : ChatConfig) (query model : String) ( prints : Bool)
        (chatPost : ChatTransport) (sourcesPost : SourcesTransport)
        (m : ChatModel) (c s : PyDict),
        resolveModel model = some m →
        send_chat_request config query m prints chatPost = .ok c →
        send_sources_request config query sourcesPost = .ok s →
        chat config query model prints chatPost sourcesPost = .ok (mergeStep c s))
    ∧ (∀ c s : PyDict, hasKey "error" c = true → mergeStep c s = dictUpdate [] c)
    ∧ (∀ (c s : PyDict) (k : String) (v : Json), keysNodup c = true →
        hasKey k s = true → lookup k c = some v →
        lookup k (mergeStep c s) = some v) := by
  refine ⟨?_, ?_, ?_⟩
  · intro config query model prints chatPost sourcesPost m c s hm hsc hss
    obtain ⟨r, hrp, hr200, hcEq⟩ := send_chat_request_ok_shape _ _ _ _ _ _ hsc
    subst hcEq
    simp [chat, hm, hsc, hss, mergeStep, hasKey]
  · intro c s hk
    simp [mergeStep, hk]
  · intro c s k v hnd hks hkc
    unfold mergeStep
    exact lookup_dictUpdate_of_lookup_some k v _ c hnd hkc

/-- C7: the sources request is submitted to the worker only after the chat
request has fully completed (stream drained); if the chat sub-request
raises, no sources request is ever issued; and the call returns only after
the sources worker has been joined. The trace projection agrees with
`chat`. -/
theorem chat_temporal_order (config : ChatConfig) (query model : String) ( prints : Bool)
    (chatPost : ChatTransport) (sourcesPost : SourcesTransport) :
    (chatTrace config query model prints chatPost sourcesPost).1
      = chat config query model prints chatPost sourcesPost
    ∧ (chatTrace config query model prints chatPost sourcesPost).2
        <+: [Event.chatIssued, Event.chatCompleted, Event.sourcesIssued,
             Event.sourcesJoined, Event.returned]
    ∧ (∀ (m : ChatModel) (e : BlackBoxError), resolveModel model = some m →
        send_chat_request config query m prints chatPost = .error e →
        (chatTrace config query model prints chatPost sourcesPost).2
          = [Event.chatIssued])
    ∧ (∀ d : PyDict, chat config query model prints chatPost sourcesPost = .ok d →
        (chatTrace config query model prints chatPost sourcesPost).2
          = [Event.chatIssued, Event.chatCompleted, Event.sourcesIssued,
             Event.sourcesJoined, Event.returned]) := by
  cases hr : resolveModel model with
  | none =>
    refine ⟨by simp [chatTrace, chat, hr], ?_, ?_, ?_⟩
    · simp only [chatTrace, hr]
      exact List.nil_prefix
    · intro m e hm _
      cases hm
    · intro d hd
      simp [chat, hr] at hd
  | some m =>
    cases hsc : send_chat_request config query m prints chatPost with
    | error e =>
      have ht : chatTrace config query model prints chatPost sourcesPost
          = (.error e, [Event.chatIssued]) := by simp [chatTrace, hr, hsc]
      refine ⟨by rw [ht]; simp [chat, hr, hsc], ?_, ?_, ?_⟩
      · rw [ht]
        exact ⟨[Event.chatCompleted, Event.sourcesIssued, Event.sourcesJoined,
          Event.returned], rfl⟩
      · intro m₂ e₂ hm₂ _
        rw [ht]
      · intro d hd
        simp [chat, hr, hsc] at hd
    | ok c =>
      obtain ⟨r, hrp, hr200, hcEq⟩ := send_chat_request_ok_shape _ _ _ _ _ _ hsc
      subst hcEq
      cases hss : send_sources_request config query sourcesPost with
      | error e =>
        have ht : chatTrace config query model prints chatPost sourcesPost
            = (.error e, [Event.chatIssued, Event.chatCompleted, Event.sourcesIssued,
                Event.sourcesJoined]) := by
          simp [chatTrace, hr, hsc, hss, hasKey]
        refine ⟨by rw [ht]; simp [chat, hr, hsc, hss, hasKey], ?_, ?_, ?_⟩
        · rw [ht]
          exact ⟨[Event.returned], rfl⟩
        · intro m₂ e₂ hm₂ hsc₂
          have hmm := Option.some.inj hm₂
          subst hmm
          exact absurd (hsc.symm.trans hsc₂) (by simp)
        · intro d hd
          simp [chat, hr, hsc, hss, hasKey] at hd
      | ok s =>
        have ht : chatTrace config query model prints chatPost sourcesPost
            = (.ok (dictUpdate (dictUpdate [] s)
                [("streaming_response", Json.str (accumulate_lines r.lines))]),
               [Event.chatIssued, Event.chatCompleted, Event.sourcesIssued,
                Event.sourcesJoined, Event.returned]) := by
          simp [chatTrace, hr, hsc, hss, hasKey]
        refine ⟨by rw [ht]; simp [chat, hr, hsc, hss, hasKey], ?_, ?_, ?_⟩
        · rw [ht]
        · intro m₂ e₂ hm₂ hsc₂
          have hmm := Option.some.inj hm₂
          subst hmm
          exact absurd (hsc.symm.trans hsc₂) (by simp)
        · intro d hd
          rw [ht]

/-- C8: when the chat request succeeds and the sources endpoint returns
HTTP 200 with JSON body B, the record returned by `chat` contains both the
accumulated streamed text and a `sources` field equal to B. -/
theorem chat_sources_merged (config : ChatConfig) (query model : String) ( prints : Bool)
    (chatPost : ChatTransport) (sourcesPost : SourcesTransport) (m : ChatModel)
    (r rs : HttpResponse)
    (hm : resolveModel model = some m)
    (hc : chatPost (chat_request_data config query m) = .ok r)
    (h200 : r.status_code = 200)
    (hs : sourcesPost (sources_request_data query) = .ok rs)
    (hs200 : rs.status_code = 200) :
    chat config query model prints chatPost sourcesPost
      = .ok [("sources", rs.body),
             ("streaming_response", Json.str (accumulate_lines r.lines))]
    ∧ lookup "sources" [("sources", rs.body),
        ("streaming_response", Json.str (accumulate_lines r.lines))] = some rs.body
    ∧ lookup "streaming_response" [("sources", rs.body),
        ("streaming_response", Json.str (accumulate_lines r.lines))]
        = some (Json.str (accumulate_lines r.lines)) := by
  have hcr : send_chat_request config query m prints chatPost
      = .ok [("streaming_response", Json.str (accumulate_lines r.lines))] := by
    simp [send_chat_request, hc, h200]
  have hsr : send_sources_request config query sourcesPost
      = .ok [("sources", rs.body)] := by
    simp [send_sources_request, hs, hs200]
  refine ⟨?_, by simp [lookup], by simp [lookup]⟩
  simp [chat, hm, hcr, hsr, hasKey, dictUpdate, setKey]

/-- C9: the chat request payload has a single message whose content is
`"@<model-id> <query>"`, `userSelectedModel` equal to the model id,
`maxTokens` from the configuration (default 1024), the fixed validation
token, the web/deep-search toggles from the configuration, and all the
remaining fixed flags of the external-interface contract; the transport is
consulted at exactly this payload. -/
theorem chat_payload_contract (config : ChatConfig) (query : String) (model : ChatModel) :
    (chat_request_data config query model).messages
        = [{ id := "", content := "@" ++ model.value ++ " " ++ query, role := "user" }]
    ∧ (∀ ( prints : Bool) (p₁ p₂ : ChatTransport),
        p₁ (chat_request_data config query model)
            = p₂ (chat_request_data config query model) →
        send_chat_request config query model prints p₁
          = send_chat_request config query model prints p₂)
    ∧ (chat_request_data config query model).userSelectedModel = model.value
    ∧ (chat_request_data config query model).maxTokens = config.max_tokens
    ∧ ({} : ChatConfig).max_tokens = 1024
    ∧ (chat_request_data config query model).validated
        = "00f37b34-a166-4efb-bce5-1312d87f2f94"
    ∧ (chat_request_data config query model).webSearchModePrompt
        = config.web_search_mode_prompt
    ∧ (chat_request_data config query model).deepSearchMode = config.deep_search_mode
    ∧ (chat_request_data config query model).id = ""
    ∧ (chat_request_data config query model).previewToken = none
    ∧ (chat_request_data config query model).userId = none
    ∧ (chat_request_data config query model).codeModelMode = true
    ∧ (chat_request_data config query model).agentMode = []
    ∧ (chat_request_data config query model).trendingAgentMode = []
    ∧ (chat_request_data config query model).isMicMode = false
    ∧ (chat_request_data config query model).userSystemPrompt = none
    ∧ (chat_request_data config query model).playgroundTopP = none
    ∧ (chat_request_data config query model).playgroundTemperature = none
    ∧ (chat_request_data config query model).isChromeExt = false
    ∧ (chat_request_data config query model).githubToken = ""
    ∧ (chat_request_data config query model).clickedAnswer2 = false
    ∧ (chat_request_data config query model).clickedAnswer3 = false
    ∧ (chat_request_data config query model).clickedForceWebSearch = false
    ∧ (chat_request_data config query model).visitFromDelta = false
    ∧ (chat_request_data config query model).mobileClient = false
    ∧ (chat_request_data config query model).imageGenerationMode = false := by
  refine ⟨rfl, ?_, rfl, rfl, rfl, rfl, rfl, rfl, rfl, rfl, rfl, rfl, rfl, rfl, rfl,
    rfl, rfl, rfl, rfl, rfl, rfl, rfl, rfl, rfl, rfl, rfl⟩
  intro prints p₁ p₂ hp
  unfold send_chat_request
  rw [hp]

/-- C10: the `error` guard in `chat` is vacuous: a successful
`_send_chat_request` always returns a dictionary whose only key is
`streaming_response` and never an `error` key, so whenever the chat
sub-request succeeds the guard holds and the sources result is merged. -/
theorem chat_error_guard_vacuous :
    (∀ (config : ChatConfig) (query : String) (model : ChatModel) ( prints : Bool)
        (post : ChatTransport) (d : PyDict),
        send_chat_request config query model prints post = .ok d →
        (∃ s, d = [("streaming_response", Json.str s)]) ∧ hasKey "error" d = false)
    ∧ (∀ (config : ChatConfig) (query model : String) ( prints : Bool)
        (chatPost : ChatTransport) (sourcesPost : SourcesTransport)
        (m : ChatModel) (c s : PyDict),
        resolveModel model = some m →
        send_chat_request config query m prints chatPost = .ok c →
        send_sources_request config query sourcesPost = .ok s →
        chat config query model prints chatPost sourcesPost
          = .ok (dictUpdate (dictUpdate [] s) c)) := by
  constructor
  · intro config query model prints post d h
    obtain ⟨r, hrp, h200, hd⟩ := send_chat_request_ok_shape _ _ _ _ _ _ h
    subst hd
    exact ⟨⟨_, rfl⟩, rfl⟩
  · intro config query model prints chatPost sourcesPost m c s hm hsc hss
    obtain ⟨r, hrp, h200, hc⟩ := send_chat_request_ok_shape _ _ _ _ _ _ hsc
    subst hc
    simp [chat, hm, hsc, hss, hasKey]

/-! ### Witnesses: the claim theorems at concrete runs -/

/-- Witness for C1: chat succeeds with 200, sources endpoint answers 500. -/
theorem chat_propagates_sources_failure_witness :
    ∃ msg, chat {} "hi" "GPT_4O" true okChatPost badSourcesPost
      = .error (.apiRequestError msg) :=
  chat_propagates_sources_failure {} "hi" "GPT_4O" true okChatPost badSourcesPost
    ChatModel.GPT_4O okChatResponse (by decide) rfl rfl
    (Or.inr ⟨badResponse, rfl, by decide⟩)

/-- Witness for C2: an unknown name fails, a lowercase known name matches
its key case-insensitively. -/
theorem chat_model_resolution_witness :
    (∃ msg, chat {} "q" "llama" true okChatPost okSourcesPost
        = .error (.modelNotFoundError msg))
    ∧ ciEq "gpt_4o" ChatModel.GPT_4O.pyName = true :=
  ⟨((chat_model_resolution {} "q" "llama" true okChatPost okSourcesPost).1).mpr
      (by intro m; cases m <;> decide),
   (chat_model_resolution {} "q" "gpt_4o" true okChatPost okSourcesPost).2.2.1
      ChatModel.GPT_4O (by decide)⟩

/-- Witness for C3: the example stream `["Hello", "world"]`. -/
theorem chat_streaming_accumulation_witness :
    send_chat_request {} "hi" ChatModel.GPT_4O true okChatPost
      = .ok [("streaming_response", Json.str (linesConcat okChatResponse.lines))]
    ∧ linesConcat ["Hello", "world"] = "Hello\nworld\n" :=
  chat_streaming_accumulation {} "hi" ChatModel.GPT_4O true okChatPost
    okChatResponse rfl rfl

/-- Witness for C4: chat endpoint answering 500. -/
theorem chat_non200_error_witness :
    chat {} "hi" "GPT_4O" true badChatPost okSourcesPost
      = .error (.apiRequestError ("Chat request failed: "
          ++ ("Chat request failed with status code: "
            ++ toString badResponse.status_code))) :=
  chat_non200_error {} "hi" "GPT_4O" true badChatPost okSourcesPost ChatModel.GPT_4O
    badResponse (by decide) rfl (by decide)

/-- Witness for C5: the streamed-text field is present in a concrete
successful result. -/
theorem chat_result_fields_witness :
    ∃ v, lookup "streaming_response"
      [("sources", Json.obj [("refs", Json.arr [Json.str "a"])]),
       ("streaming_response", Json.str "Hello\nworld\n")] = some v :=
  (chat_result_fields {} "hi" "GPT_4O" true okChatPost okSourcesPost
    [("sources", Json.obj [("refs", Json.arr [Json.str "a"])]),
     ("streaming_response", Json.str "Hello\nworld\n")] rfl).1

/-- Witness for C6: a concrete run equals the merge step, and on a shared
key the chat result's value wins. -/
theorem chat_merge_precedence_witness :
    chat {} "hi" "GPT_4O" true okChatPost okSourcesPost
      = .ok (mergeStep [("streaming_response", Json.str "Hello\nworld\n")]
          [("sources", Json.obj [("refs", Json.arr [Json.str "a"])])])
    ∧ lookup "k" (mergeStep [("k", Json.num 1)] [("k", Json.num 2)])
        = some (Json.num 1) :=
  ⟨chat_merge_precedence.1 {} "hi" "GPT_4O" true okChatPost okSourcesPost
      ChatModel.GPT_4O [("streaming_response", Json.str "Hello\nworld\n")]
      [("sources", Json.obj [("refs", Json.arr [Json.str "a"])])] (by decide) rfl rfl,
   chat_merge_precedence.2.2 [("k", Json.num 1)] [("k", Json.num 2)] "k" (Json.num 1)
      rfl rfl rfl⟩

/-- Witness for C7: a failing chat sub-request leaves the trace at
`[chatIssued]`; a fully successful run produces the full trace. -/
theorem chat_temporal_order_witness :
    (chatTrace {} "hi" "GPT_4O" true badChatPost okSourcesPost).2 = [Event.chatIssued]
    ∧ (chatTrace {} "hi" "GPT_4O" true okChatPost okSourcesPost).2
        = [Event.chatIssued, Event.chatCompleted, Event.sourcesIssued,
           Event.sourcesJoined, Event.returned] :=
  ⟨(chat_temporal_order {} "hi" "GPT_4O" true badChatPost okSourcesPost).2.2.1
      ChatModel.GPT_4O (.apiRequestError ("Chat request failed: "
        ++ ("Chat request failed with status code: " ++ toString (500 : Nat))))
      (by decide) rfl,
   (chat_temporal_order {} "hi" "GPT_4O" true okChatPost okSourcesPost).2.2.2
      [("sources", Json.obj [("refs", Json.arr [Json.str "a"])]),
       ("streaming_response", Json.str "Hello\nworld\n")] rfl⟩

/-- Witness for C8: sources body `{"refs":["a"]}` appears in the result. -/
theorem chat_sources_merged_witness :
    chat {} "hi" "GPT_4O" true okChatPost okSourcesPost
      = .ok [("sources", okSourcesResponse.body),
             ("streaming_response", Json.str (accumulate_lines okChatResponse.lines))]
    ∧ lookup "sources" [("sources", okSourcesResponse.body),
        ("streaming_response", Json.str (accumulate_lines okChatResponse.lines))]
        = some okSourcesResponse.body
    ∧ lookup "streaming_response" [("sources", okSourcesResponse.body),
        ("streaming_response", Json.str (accumulate_lines okChatResponse.lines))]
        = some (Json.str (accumulate_lines okChatResponse.lines)) :=
  chat_sources_merged {} "hi" "GPT_4O" true okChatPost okSourcesPost ChatModel.GPT_4O
    okChatResponse okSourcesResponse (by decide) rfl rfl rfl rfl

/-- Witness for C9: two transports agreeing on the payload give the same
request result. -/
theorem chat_payload_contract_witness :
    send_chat_request {} "hi" ChatModel.GPT_4O true okChatPost
      = send_chat_request {} "hi" ChatModel.GPT_4O true (fun _ => .ok okChatResponse) :=
  (chat_payload_contract {} "hi" ChatModel.GPT_4O).2.1 true okChatPost
    (fun _ => .ok okChatResponse) rfl

/-- Witness for C10: a concrete successful chat sub-result has only the
`streaming_response` key. -/
theorem chat_error_guard_vacuous_witness :
    (∃ s, ([("streaming_response", Json.str "Hello\nworld\n")] : PyDict)
        = [("streaming_response", Json.str s)])
    ∧ hasKey "error" [("streaming_response", Json.str "Hello\nworld\n")] = false :=
  chat_error_guard_vacuous.1 {} "hi" ChatModel.GPT_4O true okChatPost
    [("streaming_response", Json.str "Hello\nworld\n")] rfl

end BlackboxChat
